import Mathlib

/-!
Verification of the CashFlow AI ML forecasting service (apps/ml-service/main.py).

The development shallowly embeds the core pipeline functions:
`fetch_transactions`, `prepare_prophet_data`, `generate_prophet_forecast`'s
scenario parameter tables, `store_forecasts`, `calculate_accuracy`,
`generate_forecast_alerts`, the anomaly-record assembly of `detect_anomalies`,
and the storage-write sequence of `run_forecast_pipeline`.

Modelling conventions:
- dates are day numbers in `ℤ`; money amounts in minor units (cents) are `ℤ`;
  converted working-unit amounts are `ℚ` (Python float arithmetic is modelled
  exactly over `ℚ`; the only float-specific behaviour the source relies on is
  division by zero, which is modelled explicitly by the `PyF` type below);
- the Prophet model object is opaque: every use of a fitted model's
  predictions is a parameter (`ℤ → ℚ`, date to predicted value), while the
  date structure of its output (`make_future_dataframe`) is modelled exactly;
- SQL statements are modelled by the row lists they produce or consume; the
  write side of the pipeline is modelled as an event trace.
-/

set_option maxRecDepth 400000

deriving instance DecidableEq for Except

/-- The three scenario names of `generate_prophet_forecast`. -/
inductive Scenario where
  | pessimistic
  | baseline
  | optimistic
  deriving DecidableEq, Repr

/-- The `interval_width` table of `generate_prophet_forecast`
(pessimistic 0.95, baseline 0.80, optimistic 0.65). -/
def interval_width : Scenario → ℚ
  | .pessimistic => 0.95
  | .baseline => 0.80
  | .optimistic => 0.65

/-- The `changepoint_scale` table of `generate_prophet_forecast`
(pessimistic 0.1, baseline 0.05, optimistic 0.02), passed to Prophet as
`changepoint_prior_scale`, the trend-flexibility parameter. -/
def changepoint_scale : Scenario → ℚ
  | .pessimistic => 0.1
  | .baseline => 0.05
  | .optimistic => 0.02

/-- One row inserted into the `alerts` table by `generate_forecast_alerts`.
The constant `title`/`message`/`status` strings of the INSERT are omitted;
the fields below are the ones the INSERT varies or that the spec names. -/
structure Alert where
  company_id : String
  alert_type : String
  severity : String
  predicted_date : ℤ
  predicted_amount : ℤ
  deriving DecidableEq, Repr

/-- The scan loop of `generate_forecast_alerts`: the baseline forecast rows
(`forecast_date`, `predicted_balance` in cents) are visited in list order
(the SQL orders them by `forecast_date`); the first row with
`predicted < current_balance * 0.2` produces one alert row and the loop
breaks.  Returns the list of alert rows inserted. -/
def generate_forecast_alerts (company_id : String) (current_balance : ℤ) :
    List (ℤ × ℤ) → List Alert
  | [] => []
  | p :: rest =>
    if (p.2 : ℚ) < (current_balance : ℚ) * 0.2 then
      [{ company_id := company_id, alert_type := "cash_shortage",
         severity := "critical", predicted_date := p.1, predicted_amount := p.2 }]
    else generate_forecast_alerts company_id current_balance rest

/-! ## Accuracy Evaluator (`calculate_accuracy`)

The source computes `mape = np.mean(np.abs((y_true - y_pred) / y_true)) * 100`
with NumPy float arithmetic.  Division of a nonzero float by zero yields
±infinity and 0/0 yields NaN (with a runtime warning, not an exception), and
both propagate through `mean`/`round`.  `PyF` models exactly that fragment of
float behaviour; all finite values are exact rationals.  NumPy elementwise
operations on 1-d arrays of unequal length raise a broadcast `ValueError`
unless one operand has length 1; `npSub`/`npDivF` model this with `Except`. -/

/-- A NumPy float scalar: finite (exact rational), +inf, -inf, or NaN. -/
inductive PyF where
  | fin : ℚ → PyF
  | inf : PyF
  | ninf : PyF
  | nan : PyF
  deriving DecidableEq, Repr

/-- NumPy float division of finite values: division by zero produces
±infinity (or NaN for 0/0) instead of raising. -/
def pyDiv (a b : ℚ) : PyF :=
  if b = 0 then (if a = 0 then .nan else if 0 < a then .inf else .ninf)
  else .fin (a / b)

/-- `np.abs` on a float scalar. -/
def pyAbs : PyF → PyF
  | .fin q => .fin |q|
  | .inf => .inf
  | .ninf => .inf
  | .nan => .nan

/-- Float addition: NaN absorbs, inf + (-inf) = NaN, infinities absorb. -/
def pyAdd : PyF → PyF → PyF
  | .nan, _ => .nan
  | _, .nan => .nan
  | .inf, .ninf => .nan
  | .ninf, .inf => .nan
  | .inf, _ => .inf
  | _, .inf => .inf
  | .ninf, _ => .ninf
  | _, .ninf => .ninf
  | .fin a, .fin b => .fin (a + b)

def pySum (l : List PyF) : PyF := l.foldl pyAdd (.fin 0)

/-- Division of a float by a (positive) array length, for `np.mean`;
`n = 0` gives NaN as NumPy's mean of an empty array does. -/
def pyDivNat (x : PyF) (n : ℕ) : PyF :=
  if n = 0 then .nan
  else
    match x with
    | .fin q => .fin (q / (n : ℚ))
    | .inf => .inf
    | .ninf => .ninf
    | .nan => .nan

/-- `np.mean` over a float array. -/
def pyMean (l : List PyF) : PyF := pyDivNat (pySum l) l.length

/-- `np.mean` over an array that is finite throughout (used for the RMSE/MAE
paths, which perform no division by data values).  Callers in this file only
apply it to non-empty lists. -/
def listMean (l : List ℚ) : ℚ := l.sum / (l.length : ℚ)

/-- Python's `round(x, 2)`.  Exact-rational model; Python's float
round-half-to-even can differ from `round` at exact half-cent ties, which no
property stated here depends on. -/
def round2 (q : ℚ) : ℚ := ((round (q * 100) : ℤ) : ℚ) / 100

/-- `x * 100` on a float scalar (the MAPE percentage scaling). -/
def pyMul100 : PyF → PyF
  | .fin q => .fin (q * 100)
  | .inf => .inf
  | .ninf => .ninf
  | .nan => .nan

/-- `round(x, 2)` on a float scalar: infinities and NaN round to themselves. -/
def pyRound2 : PyF → PyF
  | .fin q => .fin (round2 q)
  | .inf => .inf
  | .ninf => .ninf
  | .nan => .nan

/-- The `ValueError` message for a NumPy broadcast shape mismatch. -/
def broadcastMsg : String := "operands could not be broadcast together"

/-- NumPy elementwise subtraction of two 1-d arrays with broadcasting: equal
lengths pair positionally; a length-1 operand is broadcast; any other length
mismatch raises. -/
def npSub (a b : List ℚ) : Except String (List ℚ) :=
  if a.length = b.length then .ok (List.zipWith (fun x y => x - y) a b)
  else if b.length = 1 then .ok (a.map (fun x => x - b.headI))
  else if a.length = 1 then .ok (b.map (fun y => a.headI - y))
  else .error broadcastMsg

/-- NumPy elementwise division with broadcasting, landing in float scalars
because of possible division by zero. -/
def npDivF (a b : List ℚ) : Except String (List PyF) :=
  if a.length = b.length then .ok (List.zipWith pyDiv a b)
  else if b.length = 1 then .ok (a.map (fun x => pyDiv x b.headI))
  else if a.length = 1 then .ok (b.map (fun y => pyDiv a.headI y))
  else .error broadcastMsg

/-- The dict returned by `calculate_accuracy`.  `mape` is a float scalar
(it can be ±inf/NaN via division by a zero true value).  `rmse_sq` holds the
mean of squared errors: the code reports `round(sqrt(rmse_sq), 2)`, which is
irrational in general; taking the square root preserves definedness and
non-negativity, which is all any property stated here uses.  `mae` is exact.
A `none` field is the Python `None` marker of the undefined-metrics dict. -/
structure AccuracyMetrics where
  mape : Option PyF
  rmse_sq : Option ℚ
  mae : Option ℚ
  deriving DecidableEq, Repr

/-- The `{"mape": None, "rmse": None, "mae": None}` dict. -/
def undefined_metrics : AccuracyMetrics := ⟨none, none, none⟩

/-- The metric block of `calculate_accuracy`: given the aligned-by-position
`y_true` and `y_pred` arrays, compute MAPE/RMSE/MAE as the source does. -/
def metric_dict (y_true y_pred : List ℚ) : Except String AccuracyMetrics :=
  match npSub y_true y_pred with
  | .error e => .error e
  | .ok diff =>
    match npDivF diff y_true with
    | .error e => .error e
    | .ok ratios =>
      .ok { mape := some (pyRound2 (pyMul100 (pyMean (ratios.map pyAbs)))),
            rmse_sq := some (listMean (diff.map (fun x => x * x))),
            mae := some (round2 (listMean (diff.map (fun x => |x|)))) }

/-- Greatest `ds` of a series (Prophet's anchor for future dates). -/
def maxDs : List ℤ → ℤ
  | [] => 0
  | d :: ds => ds.foldl max d

/-- The `ds` column of `model.make_future_dataframe(periods=30)` followed by
`model.predict`: one row per historical date plus the 30 consecutive days
after the last historical date. -/
def future_dates (train : List (ℤ × ℚ)) : List ℤ :=
  train.map Prod.fst ++
    (List.range 30).map (fun i => maxDs (train.map Prod.fst) + (i : ℤ) + 1)

/-- The holdout block of `calculate_accuracy` after the train/test split:
`predictions = predictions[predictions.ds.isin(test.ds)]`, the empty-
predictions early return, then
`y_true = test.y.values; y_pred = predictions.yhat.values[:len(y_true)]`
and the metric computation.  `yhat` is the fitted model's prediction as a
function of the row date. -/
def holdout_validate (train test : List (ℤ × ℚ)) (yhat : ℤ → ℚ) :
    Except String AccuracyMetrics :=
  if ((future_dates train).filter (fun d => decide (d ∈ test.map Prod.fst))).length = 0 then
    .ok undefined_metrics
  else
    metric_dict (test.map Prod.snd)
      ((((future_dates train).filter (fun d => decide (d ∈ test.map Prod.fst))).map yhat).take
        (test.map Prod.snd).length)

/-- `calculate_accuracy(historical, forecast)`: the `forecast` argument is
unused by the source; the fitted holdout model's predictions enter as `yhat`.
Series shorter than 120 observations return the undefined-metrics dict before
any model fitting; otherwise train on all but the last 30 rows and validate
on the last 30. -/
def calculate_accuracy (historical : List (ℤ × ℚ)) (yhat : ℤ → ℚ) :
    Except String AccuracyMetrics :=
  if historical.length < 120 then .ok undefined_metrics
  else
    holdout_validate (historical.take (historical.length - 30))
      (historical.drop (historical.length - 30)) yhat

/-- Modelled from the spec: the alignment the spec describes, in which a test
date absent from the prediction output is dropped from BOTH sides and the
metrics are computed only over the surviving date-matched pairs.  Used solely
to contrast with `calculate_accuracy`, which drops such dates only from the
prediction side. -/
def calculate_accuracy_aligned (historical : List (ℤ × ℚ)) (yhat : ℤ → ℚ) :
    Except String AccuracyMetrics :=
  if historical.length < 120 then .ok undefined_metrics
  else
    if ((historical.drop (historical.length - 30)).filter
        (fun p => decide (p.1 ∈ future_dates (historical.take (historical.length - 30))))).length
        = 0 then
      .ok undefined_metrics
    else
      metric_dict
        (((historical.drop (historical.length - 30)).filter
          (fun p => decide (p.1 ∈ future_dates (historical.take (historical.length - 30))))).map
            Prod.snd)
        (((historical.drop (historical.length - 30)).filter
          (fun p => decide (p.1 ∈ future_dates (historical.take (historical.length - 30))))).map
            (fun p => yhat p.1))

/-- `Except` success test (plain Bool helper). -/
def exceptOk : Except String AccuracyMetrics → Bool
  | .ok _ => true
  | .error _ => false

/-- A 120-observation balance series over consecutive dates 0..119 whose true
value at date 100 (inside the 30-day test window) is exactly zero. -/
def c2_hist : List (ℤ × ℚ) := (List.range 120).map (fun i => ((i : ℤ), (i : ℚ) - 100))

/-- A 120-observation balance series whose last observation sits at date 500,
far beyond the 30 consecutive future dates that the holdout model predicts,
so exactly 29 of the 30 test dates appear in the prediction output. -/
def c3_hist : List (ℤ × ℚ) :=
  ((List.range 119).map (fun i => ((i : ℤ), (i : ℚ)))) ++ [((500 : ℤ), (7 : ℚ))]

/-- A 120-observation balance series over consecutive dates with no zero
values in the test window. -/
def c7_hist : List (ℤ × ℚ) := (List.range 120).map (fun i => ((i : ℤ), (i : ℚ) + 1))

/-! ## Anomaly Scorer (`detect_anomalies`)

The Isolation Forest is opaque: which row indices it flags
(`np.where(predictions == -1)[0]`) and the `score_samples` value for each
flagged row enter as parameters.  What is modelled exactly is the assembly of
the emitted anomaly dicts from the fetched transaction rows. -/

/-- One fetched transaction row: `id, amount, transaction_date,
category_primary` (amount in signed minor units). -/
structure TransactionRow where
  id : String
  amount : ℤ
  date : ℤ
  category : String
  deriving DecidableEq, Repr

/-- One anomaly dict appended by `detect_anomalies`:
`{transactionId, amount, date, category, score}`. -/
structure AnomalyRecord where
  transactionId : String
  amount : ℚ
  date : ℤ
  category : String
  score : ℚ
  deriving DecidableEq, Repr

/-- The `amount_abs` model feature: `df.amount.abs() / 100`. -/
def amount_abs_feature (t : TransactionRow) : ℚ := |(t.amount : ℚ)| / 100

/-- The dict built per flagged row: note the `amount` field is
`float(row.amount) / 100` — the raw signed amount, not `amount_abs`. -/
def anomaly_record (t : TransactionRow) (score : ℚ) : AnomalyRecord :=
  { transactionId := t.id, amount := (t.amount : ℚ) / 100, date := t.date,
    category := t.category, score := score }

/-- The emission loop of `detect_anomalies`: for each flagged index, emit the
anomaly dict for the row at that index with its model score. -/
def detect_anomalies_records (rows : List TransactionRow) (anomaly_indices : List ℕ)
    (score : ℕ → ℚ) : List AnomalyRecord :=
  anomaly_indices.filterMap (fun idx => (rows[idx]?).map (fun r => anomaly_record r (score idx)))

/-! ## Forecast storage (`store_forecasts`) -/

/-- The service's configured model version (`Settings.model_version`). -/
def model_version : String := "1.0.0"

/-- One row of the DataFrame returned by `generate_prophet_forecast`:
`ds, yhat, yhat_lower, yhat_upper` (working currency units). -/
structure ForecastPoint where
  ds : ℤ
  yhat : ℚ
  yhat_lower : ℚ
  yhat_upper : ℚ
  deriving DecidableEq, Repr

/-- Python `int(x)`: truncation toward zero. -/
def py_int (q : ℚ) : ℤ := if 0 ≤ q then ⌊q⌋ else ⌈q⌉

/-- One row inserted into the `forecasts` table by `store_forecasts`.  The
`confidence_level` column is the literal `0.80` in the INSERT statement. -/
structure ForecastRow where
  company_id : String
  forecast_run_id : String
  forecast_date : ℤ
  predicted_balance : ℤ
  predicted_inflow : ℤ
  predicted_outflow : ℤ
  confidence_lower : ℤ
  confidence_upper : ℤ
  confidence_level : ℚ
  scenario : Scenario
  model_version : String
  deriving DecidableEq, Repr

/-- `store_forecasts`: each forecast row is converted to cents with `int(x *
100)` and inserted; returns the list of inserted rows. -/
def store_forecasts (run_id company_id : String) (forecasts : List ForecastPoint)
    (scenario : Scenario) : List ForecastRow :=
  forecasts.map (fun row =>
    { company_id := company_id,
      forecast_run_id := run_id,
      forecast_date := row.ds,
      predicted_balance := py_int (row.yhat * 100),
      predicted_inflow := max 0 (py_int (row.yhat * 100)),
      predicted_outflow := |min 0 (py_int (row.yhat * 100))|,
      confidence_lower := py_int (row.yhat_lower * 100),
      confidence_upper := py_int (row.yhat_upper * 100),
      confidence_level := 0.80,
      scenario := scenario,
      model_version := model_version })

/-! ## The pipeline's storage-write sequence (`run_forecast_pipeline`)

The pipeline's effect on storage is modelled as the trace of SQL write
statements it executes, in execution order.  The final UPDATE of a
successful run sets `status = 'completed'` and the `accuracy_metrics` column
in one atomic statement, so they form a single trace event. -/

/-- `fetch_transactions`: group by transaction date, sum signed amounts per
date, order by date ascending, convert cents to working units. -/
def fetch_transactions (txs : List (ℤ × ℤ)) : List (ℤ × ℚ) :=
  (((txs.map Prod.fst).dedup).mergeSort (fun a b => decide (a ≤ b))).map
    (fun d => (d, ((((txs.filter (fun t => decide (t.1 = d))).map Prod.snd).sum : ℤ) : ℚ) / 100))

/-- Running cumulative sum for `prepare_prophet_data`. -/
def cumsum (acc : ℚ) : List (ℤ × ℚ) → List (ℤ × ℚ)
  | [] => []
  | (d, a) :: rest => (d, acc + a) :: cumsum (acc + a) rest

/-- `prepare_prophet_data`: the modelled value `y` is the running sum of the
daily amounts. -/
def prepare_prophet_data (df : List (ℤ × ℚ)) : List (ℤ × ℚ) := cumsum 0 df

/-- The errors a run can fail with in the modelled pipeline:
`insufficientHistory` is the `ValueError("Insufficient transaction history
(need 90+ days)")`; `fitError` a Prophet fit failure in a scenario;
`accuracyError` an exception escaping `calculate_accuracy`. -/
inductive PipelineError where
  | insufficientHistory
  | fitError (scenario : Scenario) (msg : String)
  | accuracyError (msg : String)
  deriving DecidableEq, Repr

/-- Run status values of the `forecast_runs` table. -/
inductive RunStatus where
  | pending
  | processing
  | completed
  | failed
  deriving DecidableEq, Repr

/-- One storage write of the pipeline, in execution order:
`markProcessing` is the first UPDATE; `storeForecasts` one `store_forecasts`
call (committed per scenario); `markCompleted` the atomic UPDATE setting
completed status together with the accuracy-metrics column (`none` models
the initial empty dict, which cannot survive to this event because the
baseline scenario always runs); `markFailed` the failure UPDATE of the
`except` block; `insertAlerts` the alert inserts of
`generate_forecast_alerts`. -/
inductive Event where
  | markProcessing
  | storeForecasts (scenario : Scenario) (rows : List ForecastRow)
  | markCompleted (metrics : Option AccuracyMetrics)
  | markFailed (error : PipelineError)
  | insertAlerts (alerts : List Alert)
  deriving DecidableEq, Repr

/-- The scenario loop of `run_forecast_pipeline`: for each scenario in order,
fit (opaque `forecaster`), store the forecasts, and for the baseline scenario
evaluate `calculate_accuracy`.  Returns the write events of the completed
iterations and either the propagated error or the final accuracy dict. -/
def run_scenarios (run_id company_id : String) (df : List (ℤ × ℚ))
    (forecaster : Scenario → Except String (List ForecastPoint))
    (holdout_yhat : ℤ → ℚ) :
    List Scenario → Option AccuracyMetrics →
      List Event × Except PipelineError (Option AccuracyMetrics)
  | [], acc => ([], .ok acc)
  | s :: rest, acc =>
    match forecaster s with
    | .error msg => ([], .error (.fitError s msg))
    | .ok fc =>
      match (if s = Scenario.baseline then (calculate_accuracy df holdout_yhat).map some
             else .ok acc : Except String (Option AccuracyMetrics)) with
      | .error msg => ([Event.storeForecasts s (store_forecasts run_id company_id fc s)],
          .error (.accuracyError msg))
      | .ok acc2 =>
        let tail := run_scenarios run_id company_id df forecaster holdout_yhat rest acc2
        (Event.storeForecasts s (store_forecasts run_id company_id fc s) :: tail.1, tail.2)

/-- The rows previously stored for the baseline scenario, as re-read by the
alert query (`WHERE scenario = 'baseline' ORDER BY forecast_date`). -/
def baseline_rows (evs : List Event) : List ForecastRow :=
  (evs.filterMap (fun e =>
    match e with
    | .storeForecasts Scenario.baseline rows => some rows
    | _ => none)).flatten

/-- The tail of the pipeline after the scenario loop: on a loop error, the
`except` block's failure UPDATE; on success, the completion UPDATE (status
and metrics in one statement) followed by the alert inserts, which re-read
the stored baseline rows ordered by forecast date. -/
def finish_run (company_id : String) (current_balance : ℤ) :
    List Event × Except PipelineError (Option AccuracyMetrics) → List Event
  | (evs, .error e) => Event.markProcessing :: evs ++ [Event.markFailed e]
  | (evs, .ok acc) =>
    Event.markProcessing :: evs ++
      [Event.markCompleted acc,
       Event.insertAlerts (generate_forecast_alerts company_id current_balance
         (((baseline_rows evs).map (fun r => (r.forecast_date, r.predicted_balance))).mergeSort
           (fun a b => decide (a.1 ≤ b.1))))]

/-- `run_forecast_pipeline` as the trace of its storage writes.  Inputs: the
raw transaction rows, the opaque per-scenario Prophet forecaster (an `error`
is a fit exception), the opaque holdout model used inside
`calculate_accuracy`, and the company's current balance read by the alert
step. -/
def run_forecast_pipeline (run_id company_id : String) (raw : List (ℤ × ℤ))
    (forecaster : Scenario → Except String (List ForecastPoint))
    (holdout_yhat : ℤ → ℚ) (current_balance : ℤ) : List Event :=
  if (fetch_transactions raw).length < 90 then
    [Event.markProcessing, Event.markFailed PipelineError.insufficientHistory]
  else
    finish_run company_id current_balance
      (run_scenarios run_id company_id (prepare_prophet_data (fetch_transactions raw))
        forecaster holdout_yhat
        [Scenario.pessimistic, Scenario.baseline, Scenario.optimistic] none)

/-- The storage state a concurrent reader can observe after a prefix of the
write trace: the run row's status, error and metrics columns, and which
scenarios have forecast rows stored. -/
structure DbState where
  status : RunStatus
  stored : Scenario → Bool
  metrics : Option (Option AccuracyMetrics)
  error : Option PipelineError
  alerts : List Alert

/-- Effect of one write on the observable state. -/
def applyEvent (st : DbState) : Event → DbState
  | .markProcessing => { st with status := .processing }
  | .storeForecasts s _ => { st with stored := fun s2 => s2 == s || st.stored s2 }
  | .markCompleted m => { st with status := .completed, metrics := some m }
  | .markFailed e => { st with status := .failed, error := some e }
  | .insertAlerts as => { st with alerts := st.alerts ++ as }

/-- State of a freshly created run (`status = 'pending'`). -/
def initState : DbState :=
  { status := .pending, stored := fun _ => false, metrics := none, error := none, alerts := [] }

/-- Observable state after a list of writes. -/
def runState (evs : List Event) : DbState := evs.foldl applyEvent initState

/-- Whether a trace contains a `store_forecasts` write for a scenario. -/
def hasStore (s : Scenario) (evs : List Event) : Bool :=
  evs.any (fun e =>
    match e with
    | .storeForecasts s2 _ => decide (s2 = s)
    | _ => false)

/-- A concrete transaction history with a single distinct date. -/
def c6_short_raw : List (ℤ × ℤ) := [(0, 100)]

/-- A concrete transaction history with 90 distinct dates. -/
def c6_raw : List (ℤ × ℤ) := (List.range 90).map (fun i => ((i : ℤ), (100 : ℤ)))

/-- A concrete 90-distinct-date history for the pipeline-order witness. -/
def c9_raw : List (ℤ × ℤ) := (List.range 90).map (fun i => ((i : ℤ), (100 : ℤ)))

/-- If the two metric operands have mismatched lengths and neither has length
one, the NumPy subtraction raises the broadcast error. -/
theorem metric_dict_length_mismatch (a b : List ℚ) (ha : ¬ a.length = b.length)
    (hb1 : ¬ b.length = 1) (ha1 : ¬ a.length = 1) :
    metric_dict a b = .error broadcastMsg := by
  unfold metric_dict npSub
  rw [if_neg ha, if_neg hb1, if_neg ha1]

/-- Claim C8: the scenario-to-parameter mapping is the fixed static table
`interval_width` / `changepoint_scale`, and both are monotone across
scenarios: pessimistic ≥ baseline ≥ optimistic. -/
theorem scenario_params_monotone :
    interval_width Scenario.optimistic ≤ interval_width Scenario.baseline ∧
    interval_width Scenario.baseline ≤ interval_width Scenario.pessimistic ∧
    changepoint_scale Scenario.optimistic ≤ changepoint_scale Scenario.baseline ∧
    changepoint_scale Scenario.baseline ≤ changepoint_scale Scenario.pessimistic := by
  refine ⟨?_, ?_, ?_, ?_⟩ <;> norm_num [interval_width, changepoint_scale]

/-- Claim C1, counterexample: with current balance exactly 0, a forecast
point with strictly negative predicted balance does trigger a cash-shortage
alert (the threshold test is `predicted < 0 * 0.2 = 0`), so the claim that no
alert can fire for any forecast sequence, including negative points, is
false. -/
theorem alert_zero_balance_cex :
    generate_forecast_alerts "c" 0 [(1, -100)] ≠ [] := by
  norm_num [generate_forecast_alerts]

/-- Claim C1, amended: with current balance exactly 0, no cash-shortage alert
fires provided every forecast point's predicted balance is non-negative; a
strictly negative predicted balance does trigger an alert. -/
theorem alert_zero_balance_nonneg (cid : String) (pts : List (ℤ × ℤ))
    (h : ∀ p ∈ pts, 0 ≤ p.2) :
    generate_forecast_alerts cid 0 pts = [] := by
  induction pts with
  | nil => rfl
  | cons hd tl ih =>
    have h0 : (0 : ℚ) ≤ (hd.2 : ℚ) := by exact_mod_cast h hd (List.mem_cons_self _ _)
    have hcond : ¬ ((hd.2 : ℚ) < ((0 : ℤ) : ℚ) * 0.2) := by
      push_cast
      norm_num
      exact_mod_cast h0
    simp only [generate_forecast_alerts, if_neg hcond]
    exact ih (fun p hp => h p (List.mem_cons_of_mem _ hp))

/-- Witness for the amended Claim C1 at a concrete non-negative forecast. -/
theorem alert_zero_balance_nonneg_witness :
    generate_forecast_alerts "c" 0 [(1, 5), (2, 0), (3, 300)] = [] :=
  alert_zero_balance_nonneg "c" [(1, 5), (2, 0), (3, 300)] (by decide)

/-- Claim C4: scanning the baseline forecast points in ascending date order,
the first point whose predicted balance is strictly below 20% of the current
balance yields exactly one `cash_shortage`/`critical` alert at that point's
date and amount, and scanning stops: no later qualifying point produces an
alert in the same run. -/
theorem alert_first_match (cid : String) (cb : ℤ) (pts : List (ℤ × ℤ))
    (hsort : pts.Pairwise (fun a b => a.1 < b.1))
    (p : ℤ × ℤ) (hp : p ∈ pts) (hq : (p.2 : ℚ) < (cb : ℚ) * 0.2)
    (hfirst : ∀ q ∈ pts, (q.2 : ℚ) < (cb : ℚ) * 0.2 → p.1 ≤ q.1) :
    generate_forecast_alerts cid cb pts =
      [{ company_id := cid, alert_type := "cash_shortage", severity := "critical",
         predicted_date := p.1, predicted_amount := p.2 }] := by
  induction pts with
  | nil => cases hp
  | cons hd tl ih =>
    obtain ⟨hhd, htl⟩ := List.pairwise_cons.mp hsort
    by_cases hcond : (hd.2 : ℚ) < (cb : ℚ) * 0.2
    · simp only [generate_forecast_alerts, if_pos hcond]
      rcases List.mem_cons.mp hp with rfl | hp'
      · rfl
      · exfalso
        have h1 := hhd p hp'
        have h2 := hfirst hd (List.mem_cons_self _ _) hcond
        omega
    · simp only [generate_forecast_alerts, if_neg hcond]
      have hp' : p ∈ tl := by
        rcases List.mem_cons.mp hp with rfl | hp'
        · exact absurd hq hcond
        · exact hp'
      exact ih htl hp' (fun q hq' hqq => hfirst q (List.mem_cons_of_mem _ hq') hqq)

/-- Witness for Claim C4 on the spec's own example: forecast balances
[1000, 800, 150] with current balance 1000 give a single alert at the third
point (150 < 200). -/
theorem alert_first_match_witness :
    generate_forecast_alerts "c" 1000 [(1, 1000), (2, 800), (3, 150)] =
      [{ company_id := "c", alert_type := "cash_shortage", severity := "critical",
         predicted_date := 3, predicted_amount := 150 }] :=
  alert_first_match "c" 1000 [(1, 1000), (2, 800), (3, 150)]
    (by decide) (3, 150) (by decide) (by norm_num)
    (by
      intro q hq hqq
      fin_cases hq <;> norm_num at hqq ⊢)

/-- Claim C7: series with fewer than 120 observations get the undefined
metrics dict (all three of MAPE, RMSE, MAE are the `None` marker) without
failing or reaching the model-fitting holdout block; series with at least 120
observations proceed to holdout validation whose test window is exactly the
last 30 observations. -/
theorem acc_branches (historical : List (ℤ × ℚ)) (yhat : ℤ → ℚ) :
    (historical.length < 120 → calculate_accuracy historical yhat = .ok undefined_metrics) ∧
    (120 ≤ historical.length →
      (historical.drop (historical.length - 30)).length = 30 ∧
      calculate_accuracy historical yhat =
        holdout_validate (historical.take (historical.length - 30))
          (historical.drop (historical.length - 30)) yhat) := by
  constructor
  · intro h
    simp only [calculate_accuracy, if_pos h]
  · intro h
    refine ⟨?_, ?_⟩
    · rw [List.length_drop]
      omega
    · simp only [calculate_accuracy, if_neg (by omega : ¬ historical.length < 120)]

/-- Witness for Claim C7: a 1-point series yields the undefined dict; a
120-point series has a 30-point test window and reaches holdout validation. -/
theorem acc_branches_witness :
    calculate_accuracy [((0 : ℤ), (1 : ℚ))] (fun _ => 0) = .ok undefined_metrics ∧
    (c7_hist.drop (c7_hist.length - 30)).length = 30 ∧
    calculate_accuracy c7_hist (fun _ => 0) =
      holdout_validate (c7_hist.take (c7_hist.length - 30))
        (c7_hist.drop (c7_hist.length - 30)) (fun _ => 0) :=
  ⟨(acc_branches [((0 : ℤ), (1 : ℚ))] (fun _ => 0)).1 (by norm_num),
   ((acc_branches c7_hist (fun _ => 0)).2 (by with_unfolding_all decide)).1,
   ((acc_branches c7_hist (fun _ => 0)).2 (by with_unfolding_all decide)).2⟩

/-- Claim C2 (code defect): on `c2_hist` the aligned true value at date 100
is exactly zero, yet `calculate_accuracy` does not report the undefined
marker for MAPE: it divides by the zero true value, the quotient is -inf,
`np.abs` makes it +inf, and the reported MAPE is the non-`None` float
infinity.  (RMSE/MAE involve no division and stay finite.) -/
theorem mape_divides_by_zero_true :
    ((100 : ℤ), (0 : ℚ)) ∈ c2_hist.drop (c2_hist.length - 30) ∧
    calculate_accuracy c2_hist (fun _ => 1) =
      .ok { mape := some PyF.inf, rmse_sq := some (523 / 6), mae := some (79 / 10) } := by
  constructor
  · with_unfolding_all decide
  · with_unfolding_all decide

/-- Claim C3, counterexample: on `c3_hist` the test date 500 is missing from
the prediction output.  The source drops it only from the prediction side
(29 predictions remain against 30 true values), so the metric computation
raises the NumPy broadcast error instead of comparing 29 date-matched pairs;
the both-sides alignment the claim describes would have succeeded. -/
theorem acc_alignment_cex :
    ((c3_hist.drop (c3_hist.length - 30)).filter
      (fun p => decide (p.1 ∈ future_dates (c3_hist.take (c3_hist.length - 30))))).length = 29 ∧
    calculate_accuracy c3_hist (fun _ => 1) = .error broadcastMsg ∧
    exceptOk (calculate_accuracy_aligned c3_hist (fun _ => 1)) = true := by
  refine ⟨?_, ?_, ?_⟩ <;> with_unfolding_all decide

/-- Claim C3, amended: predictions are filtered to the dates of the test
window, but a missing date is dropped only from the prediction side: whenever
at least two but fewer than 30 of the 30 test dates appear in the prediction
output, the evaluator raises the broadcast length-mismatch error (failing the
run) instead of computing metrics over the date-matched pairs. -/
theorem acc_alignment_amended (historical : List (ℤ × ℚ)) (yhat : ℤ → ℚ)
    (h : 120 ≤ historical.length)
    (hk1 : 1 < ((future_dates (historical.take (historical.length - 30))).filter
      (fun d => decide (d ∈ (historical.drop (historical.length - 30)).map Prod.fst))).length)
    (hk30 : ((future_dates (historical.take (historical.length - 30))).filter
      (fun d => decide (d ∈ (historical.drop (historical.length - 30)).map Prod.fst))).length
      < 30) :
    calculate_accuracy historical yhat = .error broadcastMsg := by
  have hlen30 : (historical.drop (historical.length - 30)).length = 30 := by
    rw [List.length_drop]
    omega
  simp only [calculate_accuracy, if_neg (by omega : ¬ historical.length < 120)]
  unfold holdout_validate
  rw [if_neg (by omega)]
  apply metric_dict_length_mismatch
  · simp only [List.length_take, List.length_map, hlen30, inf_eq_min]
    omega
  · simp only [List.length_take, List.length_map, hlen30, inf_eq_min]
    omega
  · simp only [List.length_map, hlen30]
    omega

/-- Witness for the amended Claim C3 at the concrete gapped series. -/
theorem acc_alignment_amended_witness :
    calculate_accuracy c3_hist (fun _ => 1) = .error broadcastMsg :=
  acc_alignment_amended c3_hist (fun _ => 1)
    (by with_unfolding_all decide)
    (by with_unfolding_all decide)
    (by with_unfolding_all decide)

/-- Claim C5, counterexample: a flagged transaction of -50000 cents is
emitted with `amount = -500`, the signed working-unit amount — negative, and
not the absolute amount 500 that the model feature uses. -/
theorem anomaly_amount_cex :
    (detect_anomalies_records
        [{ id := "t1", amount := -50000, date := 0, category := "travel" }]
        [0] (fun _ => -(1 : ℚ) / 2)).map AnomalyRecord.amount = [-500] ∧
    amount_abs_feature { id := "t1", amount := -50000, date := 0, category := "travel" } = 500 ∧
    (-500 : ℚ) < 0 := by
  refine ⟨?_, ?_, ?_⟩ <;> with_unfolding_all decide

/-- Claim C5, amended: every emitted AnomalyRecord carries the transaction's
signed amount converted to working units (`amount / 100`), which is negative
exactly when the transaction amount is; only the model's feature uses the
absolute amount. -/
theorem anomaly_amount_signed (rows : List TransactionRow) (idxs : List ℕ) (score : ℕ → ℚ) :
    (detect_anomalies_records rows idxs score).map AnomalyRecord.amount =
      (idxs.filterMap (fun i => rows[i]?)).map (fun t => (t.amount : ℚ) / 100) := by
  induction idxs with
  | nil => rfl
  | cons i is ih =>
    cases h : rows[i]? with
    | none =>
      simp only [detect_anomalies_records, List.filterMap_cons, h, Option.map_none'] at ih ⊢
      exact ih
    | some t =>
      simp only [detect_anomalies_records, List.filterMap_cons, h, Option.map_some',
        List.map_cons] at ih ⊢
      rw [ih]
      simp [anomaly_record]

/-- Claim C10: every row persisted by `store_forecasts` carries the constant
`confidence_level` 0.80 regardless of scenario, although the pessimistic and
optimistic scenarios are fitted with interval widths 0.95 and 0.65, neither
of which equals the stored 0.80. -/
theorem confidence_level_constant (run_id company_id : String)
    (forecasts : List ForecastPoint) (s : Scenario) :
    ((store_forecasts run_id company_id forecasts s).all
      (fun r => decide (r.confidence_level = (0.80 : ℚ)))) = true ∧
    interval_width Scenario.pessimistic = 0.95 ∧
    interval_width Scenario.optimistic = 0.65 ∧
    (0.95 : ℚ) ≠ 0.80 ∧ (0.65 : ℚ) ≠ 0.80 := by
  refine ⟨?_, rfl, rfl, by norm_num, by norm_num⟩
  simp [store_forecasts, List.all_eq_true]

/-- `fetch_transactions` produces one row per distinct transaction date. -/
theorem fetch_transactions_length (txs : List (ℤ × ℤ)) :
    (fetch_transactions txs).length = (txs.map Prod.fst).dedup.length := by
  simp [fetch_transactions, List.length_mergeSort]

/-- Every event emitted by the scenario loop is a `storeForecasts` write. -/
theorem run_scenarios_events_store (run_id company_id : String) (df : List (ℤ × ℚ))
    (forecaster : Scenario → Except String (List ForecastPoint)) (hy : ℤ → ℚ) :
    ∀ (L : List Scenario) (acc : Option AccuracyMetrics) (e : Event),
      e ∈ (run_scenarios run_id company_id df forecaster hy L acc).1 →
      ∃ s rows, e = Event.storeForecasts s rows := by
  intro L
  induction L with
  | nil =>
    intro acc e he
    cases he
  | cons s rest ih =>
    intro acc e he
    cases hf : forecaster s with
    | error msg =>
      simp only [run_scenarios, hf] at he
      cases he
    | ok fc =>
      cases hacc : (if s = Scenario.baseline then (calculate_accuracy df hy).map some
          else .ok acc : Except String (Option AccuracyMetrics)) with
      | error msg =>
        simp only [run_scenarios, hf, hacc] at he
        rcases List.mem_singleton.mp he with rfl
        exact ⟨s, _, rfl⟩
      | ok acc2 =>
        simp only [run_scenarios, hf, hacc] at he
        rcases List.mem_cons.mp he with rfl | he'
        · exact ⟨s, _, rfl⟩
        · exact ih acc2 e he'

/-- The scenario loop can fail with a fit or accuracy error, never with the
insufficient-history error (that is raised before the loop). -/
theorem run_scenarios_no_insufficient (run_id company_id : String) (df : List (ℤ × ℚ))
    (forecaster : Scenario → Except String (List ForecastPoint)) (hy : ℤ → ℚ) :
    ∀ (L : List Scenario) (acc : Option AccuracyMetrics),
      (run_scenarios run_id company_id df forecaster hy L acc).2 ≠
        .error PipelineError.insufficientHistory := by
  intro L
  induction L with
  | nil =>
    intro acc h
    cases h
  | cons s rest ih =>
    intro acc h
    cases hf : forecaster s with
    | error msg =>
      simp only [run_scenarios, hf] at h
      cases h
    | ok fc =>
      cases hacc : (if s = Scenario.baseline then (calculate_accuracy df hy).map some
          else .ok acc : Except String (Option AccuracyMetrics)) with
      | error msg =>
        simp only [run_scenarios, hf, hacc] at h
        cases h
      | ok acc2 =>
        simp only [run_scenarios, hf, hacc] at h
        exact ih acc2 h

/-- When the scenario loop succeeds, it has stored forecasts for every
scenario it was given. -/
theorem run_scenarios_ok_stores (run_id company_id : String) (df : List (ℤ × ℚ))
    (forecaster : Scenario → Except String (List ForecastPoint)) (hy : ℤ → ℚ) :
    ∀ (L : List Scenario) (acc acc2 : Option AccuracyMetrics),
      (run_scenarios run_id company_id df forecaster hy L acc).2 = .ok acc2 →
      ∀ s ∈ L, ∃ rows,
        Event.storeForecasts s rows ∈ (run_scenarios run_id company_id df forecaster hy L acc).1 := by
  intro L
  induction L with
  | nil =>
    intro acc acc2 _ s hs
    cases hs
  | cons s0 rest ih =>
    intro acc acc2 hok s hs
    cases hf : forecaster s0 with
    | error msg =>
      rw [show (run_scenarios run_id company_id df forecaster hy (s0 :: rest) acc) =
        ([], .error (.fitError s0 msg)) by simp only [run_scenarios, hf]] at hok
      cases hok
    | ok fc =>
      cases hacc : (if s0 = Scenario.baseline then (calculate_accuracy df hy).map some
          else .ok acc : Except String (Option AccuracyMetrics)) with
      | error msg =>
        simp only [run_scenarios, hf, hacc] at hok
        cases hok
      | ok accN =>
        simp only [run_scenarios, hf, hacc] at hok ⊢
        rcases List.mem_cons.mp hs with rfl | hs'
        · exact ⟨_, List.mem_cons_self _ _⟩
        · obtain ⟨rows, hmem⟩ := ih accN acc2 hok s hs'
          exact ⟨rows, List.mem_cons_of_mem _ hmem⟩

/-- Claim C6: a history with fewer than 90 distinct transaction dates makes
the pipeline write exactly mark-processing followed by the
insufficient-history failure (status failed, error recorded, nothing else —
in particular no retry); with at least 90 distinct dates the
insufficient-history failure is never written. -/
theorem insufficient_history_branch (run_id company_id : String) (raw : List (ℤ × ℤ))
    (forecaster : Scenario → Except String (List ForecastPoint))
    (holdout_yhat : ℤ → ℚ) (cb : ℤ) :
    ((raw.map Prod.fst).dedup.length < 90 →
      run_forecast_pipeline run_id company_id raw forecaster holdout_yhat cb =
        [Event.markProcessing, Event.markFailed PipelineError.insufficientHistory] ∧
      (runState (run_forecast_pipeline run_id company_id raw forecaster holdout_yhat cb)).status
        = RunStatus.failed ∧
      (runState (run_forecast_pipeline run_id company_id raw forecaster holdout_yhat cb)).error
        = some PipelineError.insufficientHistory) ∧
    (90 ≤ (raw.map Prod.fst).dedup.length →
      Event.markFailed PipelineError.insufficientHistory ∉
        run_forecast_pipeline run_id company_id raw forecaster holdout_yhat cb) := by
  have hlen := fetch_transactions_length raw
  constructor
  · intro h
    have htr : run_forecast_pipeline run_id company_id raw forecaster holdout_yhat cb =
        [Event.markProcessing, Event.markFailed PipelineError.insufficientHistory] := by
      simp only [run_forecast_pipeline, if_pos (by omega : (fetch_transactions raw).length < 90)]
    refine ⟨htr, ?_, ?_⟩ <;> rw [htr] <;> rfl
  · intro h hmem
    rw [run_forecast_pipeline, if_neg (by omega : ¬ (fetch_transactions raw).length < 90)] at hmem
    rcases hsc : run_scenarios run_id company_id
        (prepare_prophet_data (fetch_transactions raw)) forecaster holdout_yhat
        [Scenario.pessimistic, Scenario.baseline, Scenario.optimistic] none with ⟨evs, r2⟩
    rw [hsc] at hmem
    have hstoreonly : ∀ e ∈ evs, ∃ s rows, e = Event.storeForecasts s rows := by
      intro e he
      exact run_scenarios_events_store run_id company_id _ forecaster holdout_yhat _ none e
        (by rw [hsc]; exact he)
    cases r2 with
    | error e =>
      simp only [finish_run] at hmem
      rcases List.mem_cons.mp hmem with hc | hmem'
      · cases hc
      rcases (List.mem_append.mp hmem') with hin | hin
      · obtain ⟨s, rows, heq⟩ := hstoreonly _ hin
        cases heq
      · rcases List.mem_singleton.mp hin with heq
        have he' : e = PipelineError.insufficientHistory := by
          injection heq with h1
          exact h1.symm
        subst he'
        exact run_scenarios_no_insufficient run_id company_id _ forecaster holdout_yhat _ none
          (by rw [hsc])
    | ok acc =>
      simp only [finish_run] at hmem
      rcases List.mem_cons.mp hmem with hc | hmem'
      · cases hc
      rcases (List.mem_append.mp hmem') with hin | hin
      · obtain ⟨s, rows, heq⟩ := hstoreonly _ hin
        cases heq
      · rcases List.mem_cons.mp hin with hc | hin'
        · cases hc
        · rcases List.mem_singleton.mp hin' with hc
          cases hc


/-- Witness for Claim C6 at concrete histories on both sides of the 90-day
threshold. -/
theorem insufficient_history_branch_witness :
    run_forecast_pipeline "r" "c" c6_short_raw (fun _ => .ok []) (fun _ => 0) 0 =
      [Event.markProcessing, Event.markFailed PipelineError.insufficientHistory] ∧
    Event.markFailed PipelineError.insufficientHistory ∉
      run_forecast_pipeline "r" "c" c6_raw (fun _ => .ok []) (fun _ => 0) 0 :=
  ⟨((insufficient_history_branch "r" "c" c6_short_raw (fun _ => .ok []) (fun _ => 0) 0).1
      (by with_unfolding_all decide)).1,
   (insufficient_history_branch "r" "c" c6_raw (fun _ => .ok []) (fun _ => 0) 0).2
      (by with_unfolding_all decide)⟩

/-- A trace containing no completion write never yields completed status. -/
theorem status_not_completed (evs : List Event) :
    ∀ st : DbState, st.status ≠ RunStatus.completed →
      (∀ m, Event.markCompleted m ∉ evs) →
      (List.foldl applyEvent st evs).status ≠ RunStatus.completed := by
  induction evs with
  | nil =>
    intro st h _
    exact h
  | cons e rest ih =>
    intro st h hm
    have hm' : ∀ m, Event.markCompleted m ∉ rest :=
      fun m hmem => hm m (List.mem_cons_of_mem _ hmem)
    cases e with
    | markProcessing => exact ih _ (by simp [applyEvent]) hm'
    | storeForecasts s rows => exact ih _ (by simpa [applyEvent] using h) hm'
    | markCompleted m => exact absurd (List.mem_cons_self _ _) (hm m)
    | markFailed e2 => exact ih _ (by simp [applyEvent]) hm'
    | insertAlerts as => exact ih _ (by simpa [applyEvent] using h) hm'

/-- Once a completion write is in the trace, the metrics column is set (no
later write clears it). -/
theorem metrics_set (evs : List Event) :
    ∀ st : DbState, (∃ m, Event.markCompleted m ∈ evs) ∨ st.metrics ≠ none →
      (List.foldl applyEvent st evs).metrics ≠ none := by
  induction evs with
  | nil =>
    intro st h
    rcases h with ⟨m, hm⟩ | h
    · cases hm
    · exact h
  | cons e rest ih =>
    intro st h
    cases e with
    | markCompleted m => exact ih _ (Or.inr (by simp [applyEvent]))
    | markProcessing =>
      apply ih
      rcases h with ⟨m, hm⟩ | h
      · rcases List.mem_cons.mp hm with hc | hm'
        · cases hc
        · exact Or.inl ⟨m, hm'⟩
      · exact Or.inr (by simpa [applyEvent] using h)
    | storeForecasts s rows =>
      apply ih
      rcases h with ⟨m, hm⟩ | h
      · rcases List.mem_cons.mp hm with hc | hm'
        · cases hc
        · exact Or.inl ⟨m, hm'⟩
      · exact Or.inr (by simpa [applyEvent] using h)
    | markFailed e2 =>
      apply ih
      rcases h with ⟨m, hm⟩ | h
      · rcases List.mem_cons.mp hm with hc | hm'
        · cases hc
        · exact Or.inl ⟨m, hm'⟩
      · exact Or.inr (by simpa [applyEvent] using h)
    | insertAlerts as =>
      apply ih
      rcases h with ⟨m, hm⟩ | h
      · rcases List.mem_cons.mp hm with hc | hm'
        · cases hc
        · exact Or.inl ⟨m, hm'⟩
      · exact Or.inr (by simpa [applyEvent] using h)

/-- A store-forecasts write in the trace makes `hasStore` true. -/
theorem hasStore_of_mem (s : Scenario) (rows : List ForecastRow) (evs : List Event)
    (h : Event.storeForecasts s rows ∈ evs) : hasStore s evs = true := by
  simp only [hasStore, List.any_eq_true]
  exact ⟨_, h, by simp⟩

/-- Claim C9: every pipeline write trace begins with the mark-processing
write, and after any prefix of the trace (any state a concurrent reader can
observe) a completed status implies that the store-forecasts write of each of
the three scenarios has already been applied and the accuracy-metrics column
is set (the completion UPDATE carries the metrics in the same atomic
statement as the status). -/
theorem completed_implies_forecasts (run_id company_id : String) (raw : List (ℤ × ℤ))
    (forecaster : Scenario → Except String (List ForecastPoint))
    (holdout_yhat : ℤ → ℚ) (cb : ℤ) :
    (∃ rest, run_forecast_pipeline run_id company_id raw forecaster holdout_yhat cb =
      Event.markProcessing :: rest) ∧
    (∀ pfx, pfx <+: run_forecast_pipeline run_id company_id raw forecaster holdout_yhat cb →
      (runState pfx).status = RunStatus.completed →
      (hasStore Scenario.pessimistic pfx = true ∧ hasStore Scenario.baseline pfx = true ∧
        hasStore Scenario.optimistic pfx = true) ∧
      (runState pfx).metrics ≠ none) := by
  by_cases hshort : (fetch_transactions raw).length < 90
  · have htr : run_forecast_pipeline run_id company_id raw forecaster holdout_yhat cb =
        [Event.markProcessing, Event.markFailed PipelineError.insufficientHistory] := by
      rw [run_forecast_pipeline, if_pos hshort]
    constructor
    · exact ⟨_, htr⟩
    · intro pfx hpfx hstatus
      exfalso
      refine status_not_completed pfx initState (by decide) ?_ hstatus
      intro m hm
      have hmem := hpfx.sublist.subset hm
      rw [htr] at hmem
      rcases List.mem_cons.mp hmem with hc | hmem'
      · cases hc
      · rcases List.mem_singleton.mp hmem' with hc
        cases hc
  · rcases hsc : run_scenarios run_id company_id
        (prepare_prophet_data (fetch_transactions raw)) forecaster holdout_yhat
        [Scenario.pessimistic, Scenario.baseline, Scenario.optimistic] none with ⟨evs, r2⟩
    have hstoreonly : ∀ e ∈ evs, ∃ s rows, e = Event.storeForecasts s rows := by
      intro e he
      exact run_scenarios_events_store run_id company_id _ forecaster holdout_yhat _ none e
        (by rw [hsc]; exact he)
    have htr : run_forecast_pipeline run_id company_id raw forecaster holdout_yhat cb =
        finish_run company_id cb (evs, r2) := by
      rw [run_forecast_pipeline, if_neg hshort, hsc]
    cases r2 with
    | error e =>
      constructor
      · exact ⟨_, by rw [htr]; rfl⟩
      · intro pfx hpfx hstatus
        exfalso
        refine status_not_completed pfx initState (by decide) ?_ hstatus
        intro m hm
        have hmem := hpfx.sublist.subset hm
        rw [htr] at hmem
        simp only [finish_run] at hmem
        rcases List.mem_cons.mp hmem with hc | hmem'
        · cases hc
        rcases List.mem_append.mp hmem' with hin | hin
        · obtain ⟨s, rows, heq⟩ := hstoreonly _ hin
          cases heq
        · rcases List.mem_singleton.mp hin with hc
          cases hc
    | ok acc =>
      have hstores : ∀ s, s ∈ [Scenario.pessimistic, Scenario.baseline, Scenario.optimistic] →
          ∃ rows, Event.storeForecasts s rows ∈ evs := by
        intro s hs
        obtain ⟨rows, hmem⟩ := run_scenarios_ok_stores run_id company_id _ forecaster
          holdout_yhat _ none acc (by rw [hsc]) s hs
        rw [hsc] at hmem
        exact ⟨rows, hmem⟩
      constructor
      · exact ⟨_, by rw [htr]; rfl⟩
      · intro pfx hpfx hstatus
        by_cases hmc : ∃ m, Event.markCompleted m ∈ pfx
        · have hl1 : (Event.markProcessing :: evs) <+:
              run_forecast_pipeline run_id company_id raw forecaster holdout_yhat cb := by
            rw [htr]
            exact ⟨_, rfl⟩
          rcases List.prefix_or_prefix_of_prefix hpfx hl1 with hcase | hcase
          · exfalso
            obtain ⟨m, hm⟩ := hmc
            have hmem := hcase.sublist.subset hm
            rcases List.mem_cons.mp hmem with hc | hin
            · cases hc
            · obtain ⟨s, rows, heq⟩ := hstoreonly _ hin
              cases heq
          · have hget : ∀ s, s ∈ [Scenario.pessimistic, Scenario.baseline, Scenario.optimistic] →
                hasStore s pfx = true := by
              intro s hs
              obtain ⟨rows, hmem⟩ := hstores s hs
              exact hasStore_of_mem s rows pfx
                (hcase.sublist.subset (List.mem_cons_of_mem _ hmem))
            refine ⟨⟨hget _ (by simp), hget _ (by simp), hget _ (by simp)⟩, ?_⟩
            exact metrics_set pfx initState (Or.inl hmc)
        · exfalso
          push_neg at hmc
          exact status_not_completed pfx initState (by decide) hmc hstatus


/-- Witness for Claim C9: on a concrete successful run, taking the full trace
as the observed prefix, completed status holds and the theorem yields the
three per-scenario forecast writes and the recorded metrics. -/
theorem completed_implies_forecasts_witness :
    hasStore Scenario.pessimistic
      (run_forecast_pipeline "r" "c" c9_raw (fun _ => .ok []) (fun _ => 0) 0) = true ∧
    hasStore Scenario.baseline
      (run_forecast_pipeline "r" "c" c9_raw (fun _ => .ok []) (fun _ => 0) 0) = true ∧
    hasStore Scenario.optimistic
      (run_forecast_pipeline "r" "c" c9_raw (fun _ => .ok []) (fun _ => 0) 0) = true ∧
    (runState (run_forecast_pipeline "r" "c" c9_raw (fun _ => .ok []) (fun _ => 0) 0)).metrics
      ≠ none := by
  have h := (completed_implies_forecasts "r" "c" c9_raw (fun _ => .ok []) (fun _ => 0) 0).2
    (run_forecast_pipeline "r" "c" c9_raw (fun _ => .ok []) (fun _ => 0) 0)
    (List.prefix_refl _) (by with_unfolding_all decide)
  exact ⟨h.1.1, h.1.2.1, h.1.2.2, h.2⟩

/-- Witness for the amended Claim C5 at a concrete flagged transaction. -/
theorem anomaly_amount_signed_witness :
    (detect_anomalies_records
        [{ id := "t2", amount := 250, date := 3, category := "office" }]
        [0] (fun _ => -1)).map AnomalyRecord.amount =
      (([0] : List ℕ).filterMap
        (fun i => ([{ id := "t2", amount := 250, date := 3, category := "office" }] :
          List TransactionRow)[i]?)).map (fun t => (t.amount : ℚ) / 100) :=
  anomaly_amount_signed
    [{ id := "t2", amount := 250, date := 3, category := "office" }] [0] (fun _ => -1)

/-- Witness for Claim C10 at a concrete forecast row. -/
theorem confidence_level_constant_witness :
    ((store_forecasts "r" "c" [{ ds := 1, yhat := 10, yhat_lower := 8, yhat_upper := 12 }]
        Scenario.pessimistic).all
      (fun r => decide (r.confidence_level = (0.80 : ℚ)))) = true ∧
    interval_width Scenario.pessimistic = 0.95 ∧
    interval_width Scenario.optimistic = 0.65 ∧
    (0.95 : ℚ) ≠ 0.80 ∧ (0.65 : ℚ) ≠ 0.80 :=
  confidence_level_constant "r" "c" [{ ds := 1, yhat := 10, yhat_lower := 8, yhat_upper := 12 }]
    Scenario.pessimistic
